import Mathlib

/-!
Verification development for the weather-data-app repository (src/main.py).

The Python program is shallowly embedded: pure helpers become Lean
functions, the mutable Streamlit session state and the on-disk artifacts
(per-location CSV files, the sqlite database, the memoization cache) become
an explicit `Session` record threaded through the pipeline functions, and
Python exceptions become explicit error values.  Numeric columns are
modelled over `Rat` (pandas floats are idealised as exact rationals, with
numpy's round-half-to-even at one decimal and C-style cast-toward-zero
reproduced exactly at the rational level).
-/

set_option autoImplicit false

/-- A calendar date, as produced by `datetime.date.today()` and by parsing
the first column of the persisted CSV. -/
structure DateD where
  year : Nat
  month : Nat
  day : Nat
  deriving DecidableEq, Repr

/-- Zero-pad a numeral to two digits, as `strftime` does for `%m` / `%d`. -/
def pad2 (n : Nat) : String :=
  if n < 10 then "0" ++ toString n else toString n

/-- Zero-pad a numeral to four digits, as `strftime` does for `%Y`. -/
def pad4 (n : Nat) : String :=
  if n < 10 then "000" ++ toString n
  else if n < 100 then "00" ++ toString n
  else if n < 1000 then "0" ++ toString n
  else toString n

/-- `start_date.strftime("%Y-%m-%d")` from `check_date` in src/main.py. -/
def strftimeYmd (d : DateD) : String :=
  pad4 d.year ++ "-" ++ pad2 d.month ++ "-" ++ pad2 d.day

/-- A Python value that can stand on either side of the `==` in
`check_date`: the formatted string on the left, the `datetime.date` held in
`st.session_state.todays_date` on the right. -/
inductive PyVal where
  | str (s : String)
  | date (d : DateD)
  deriving DecidableEq

/-- Python `==` on these values: strings compare with strings, dates with
dates, and a comparison across the two types is `False` (both `__eq__`
methods return `NotImplemented`, so Python falls back to identity). -/
def pyEq : PyVal → PyVal → Bool
  | .str a, .str b => a = b
  | .date a, .date b => a = b
  | _, _ => false

/-- `check_date` from src/main.py (lines 170-183), parametrised by the date
parsed from the persisted CSV's first column (`start_date`) and by
`st.session_state.todays_date`.  It returns `true` exactly when the guard
`not start_date.strftime("%Y-%m-%d") == st.session_state.todays_date`
holds, i.e. when `update_session` (a refresh) is triggered. -/
def check_date_triggers_refresh (start_date todays_date : DateD) : Bool :=
  ! pyEq (.str (strftimeYmd start_date)) (.date todays_date)

/-- Claim C1.  The staleness check is claimed to return `false` (no refresh)
whenever the stored first-row date equals the reference date.  The code
violates this: `start_date.strftime("%Y-%m-%d")` is a `str` while
`st.session_state.todays_date` is a `datetime.date`, and Python's `==`
between a string and a date is always `False`, so the guard fires and a
refresh is triggered for every pair of dates — in particular when the
stored date `2024-10-29` equals the reference date `2024-10-29`. -/
theorem check_date_always_refreshes_C1 :
    check_date_triggers_refresh ⟨2024, 10, 29⟩ ⟨2024, 10, 29⟩ = true ∧
    ∀ s t : DateD, check_date_triggers_refresh s t = true := by
  refine ⟨by decide, fun s t => ?_⟩
  rfl

/-- Floor of a rational, computed directly on numerator and denominator
(`Int.fdiv` is floor division and `q.den > 0`). -/
def ratFloor (q : Rat) : Int :=
  q.num.fdiv q.den

/-- numpy's round-half-to-even to an integer (the rounding used by
`Series.round`), idealised over the rationals. -/
def roundHalfEven (q : Rat) : Int :=
  let n := ratFloor q
  let f := q - (n : Rat)
  if f < 1/2 then n
  else if 1/2 < f then n + 1
  else if n % 2 = 0 then n else n + 1

/-- `Series.round(1)` from `process_df`: round half to even at the first
decimal place. -/
def round1 (q : Rat) : Rat :=
  ((roundHalfEven (10 * q) : Int) : Rat) / 10

/-- `Series.astype(int)` from `process_df`: the C-style float-to-int cast,
which truncates toward zero. -/
def truncToZero (q : Rat) : Int :=
  if 0 ≤ q then ratFloor q else - ratFloor (-q)

/-- One row of the dataframe built by `response_to_pandas`: the raw hourly
values, with the timestamp modelled as an hour index (hours since an
arbitrary epoch, so that an hourly `pd.date_range` is a run of consecutive
naturals). -/
structure DfRow where
  date : Nat
  temperature_2m : Rat
  precipitation_probability : Int
  precipitation : Rat
  weather_code : Int
  wind_speed_10m : Rat
  deriving DecidableEq, Repr

/-- One row of the processed table produced by `process_df` (and hence of
the persisted CSV and of the sqlite table, minus the auto-increment id). -/
structure Row where
  date : Nat
  temperature_2m : Int
  precipitation_probability : Int
  precipitation : Rat
  weather_code : Int
  wind_speed_10m : Int
  weather : String
  deriving DecidableEq, Repr

/-- The `hourly` object of the API response, as accessed by
`response_to_pandas`: six parallel arrays.  Timestamps are hour indices
(see `DfRow.date`). -/
structure RawHourly where
  time : List Nat
  temperature_2m : List Rat
  precipitation_probability : List Int
  precipitation : List Rat
  weather_code : List Int
  wind_speed_10m : List Rat
  deriving DecidableEq, Repr

deriving instance DecidableEq for Except

/-- Errors raised by the Python pipeline, as uncaught exceptions. -/
inductive PyError where
  | typeError
  | indexError
  | valueError
  | keyError (key : String)
  | fileNotFound
  deriving DecidableEq, Repr

/-- `pd.date_range(start=a, end=b, freq="h")` on hour indices: the hours
`a, a+1, …, b` (empty when `b < a`). -/
def date_range_hourly (a b : Nat) : List Nat :=
  (List.range (b + 1 - a)).map (· + a)

/-- The contiguous hourly timestamp sequence spanning the response's first
and last declared timestamps (empty when no timestamps are declared). -/
def hourlySpan (time : List Nat) : List Nat :=
  match time with
  | [] => []
  | t0 :: rest => date_range_hourly t0 ((t0 :: rest).getLast (by simp))

/-- Row-wise assembly of the dataframe from its six columns, consuming the
columns in lockstep (only called once all lengths are known to agree). -/
def buildRows : List Nat → List Rat → List Int → List Rat → List Int →
    List Rat → List DfRow
  | d :: ds, a :: as, b :: bs, c :: cs, w :: ws, s :: ss =>
      ⟨d, a, b, c, w, s⟩ :: buildRows ds as bs cs ws ss
  | _, _, _, _, _, _ => []

/-- `response_to_pandas` from src/main.py (lines 84-108).  It indexes
`hourly_time[0]` (an `IndexError` on an empty list), builds the hourly
`pd.date_range` spanning the first and last timestamps, and hands the six
columns to the `pd.DataFrame` constructor, which raises `ValueError` when
the arrays do not all have the same length. -/
def response_to_pandas (r : RawHourly) : Except PyError (List DfRow) :=
  match r.time with
  | [] => .error .indexError
  | t0 :: rest =>
      let dates := date_range_hourly t0 ((t0 :: rest).getLast (by simp))
      if r.temperature_2m.length = dates.length ∧
          r.precipitation_probability.length = dates.length ∧
          r.precipitation.length = dates.length ∧
          r.weather_code.length = dates.length ∧
          r.wind_speed_10m.length = dates.length then
        .ok (buildRows dates r.temperature_2m r.precipitation_probability
          r.precipitation r.weather_code r.wind_speed_10m)
      else
        .error .valueError

/-- First-match lookup in the decoded `weather_codes.json` dictionary. -/
def dictGet : List (String × String) → String → Option String
  | [], _ => none
  | (k, v) :: rest, key => if k = key then some v else dictGet rest key

/-- The loop of `process_df` that builds the `weather` column: for each
`weather_code` value it indexes `weather_codes[str(int(value))]`, raising
`KeyError` at the first code absent from the table. -/
def buildWeather (codes : List (String × String)) :
    List Int → Except PyError (List String)
  | [] => .ok []
  | v :: vs =>
      match dictGet codes (toString v) with
      | none => .error (.keyError (toString v))
      | some w =>
          match buildWeather codes vs with
          | .error e => .error e
          | .ok ws => .ok (w :: ws)

/-- Apply the numeric transformations of `process_df` to one row, attaching
its weather label: `temperature_2m` and `wind_speed_10m` are rounded to one
decimal then cast to int, `precipitation` is rounded to one decimal. -/
def processRow (r : DfRow) (w : String) : Row :=
  { date := r.date
    temperature_2m := truncToZero (round1 r.temperature_2m)
    precipitation_probability := r.precipitation_probability
    precipitation := round1 r.precipitation
    weather_code := r.weather_code
    wind_speed_10m := truncToZero (round1 r.wind_speed_10m)
    weather := w }

/-- Pair the dataframe rows with the weather column built for them. -/
def attachWeather : List DfRow → List String → List Row
  | r :: rs, w :: ws => processRow r w :: attachWeather rs ws
  | _, _ => []

/-- `process_df` from src/main.py (lines 111-135), parametrised by the
decoded contents of `jsons/weather_codes.json`. -/
def process_df (codes : List (String × String)) (df : List DfRow) :
    Except PyError (List Row) :=
  match buildWeather codes (df.map (·.weather_code)) with
  | .error e => .error e
  | .ok ws => .ok (attachWeather df ws)

/-- A persisted sqlite row: the auto-increment `id` primary key paired with
the forecast fields. -/
def DbRow : Type := Nat × Row

instance : DecidableEq DbRow := instDecidableEqProd

/-- `to_sql` appending the CSV rows into the freshly created empty table:
sqlite assigns ids 1, 2, …, n in insertion order. -/
def withIds (rows : List Row) : List DbRow :=
  (List.range rows.length).zip rows |>.map (fun p => (p.1 + 1, p.2))

/-- The sqlite table name `f"weekly_{location}"` used by `csv_to_db` and
`get_data_from_db`. -/
def tableName (location : String) : String :=
  "weekly_" ++ location

/-- The CSV file name `f"weekly_{location}_forecast.csv"` used by
`update_session`, `csv_to_db` and `check_date`. -/
def csvName (location : String) : String :=
  "weekly_" ++ location ++ "_forecast.csv"

/-- Point update of a string-keyed finite store. -/
def setF {α : Type} (f : String → Option α) (k : String) (v : α) :
    String → Option α :=
  fun x => if x = k then some v else f x

/-- The program's mutable world: the CSV files on disk, the tables of
`weather_data.db`, and the Streamlit session — `st.cache_data`'s
memoization of `get_data_from_db` keyed by `(location, date)`, a counter of
actual sqlite reads performed (for stating cache behaviour), and the
`current_location` / `current_df` entries of `st.session_state`. -/
structure Session where
  csv : String → Option (List Row)
  db : String → Option (List DbRow)
  cache : List ((String × DateD) × List DbRow)
  dbReads : Nat
  current_location : String
  current_df : Option (List DbRow)

/-- A session with no files, no tables and an empty cache. -/
def emptySession : Session :=
  { csv := fun _ => none
    db := fun _ => none
    cache := []
    dbReads := 0
    current_location := "london"
    current_df := none }

/-- `processed_df.to_csv(f"weekly_{location}_forecast.csv", index=False)`:
overwrite the location's CSV file with the processed rows. -/
def to_csv (s : Session) (location : String) (rows : List Row) : Session :=
  { s with csv := setF s.csv (csvName location) rows }

/-- `csv_to_db` from src/main.py (lines 138-167): `DROP TABLE IF EXISTS
weekly_{location}`, `CREATE TABLE weekly_{location}(id INTEGER NOT NULL
PRIMARY KEY, …)`, then `pd.read_csv` of the location's CSV and `to_sql`
append of its rows.  The drop-and-create happens before the file is read,
so a missing CSV leaves the table empty and raises `FileNotFoundError`. -/
def csv_to_db (s : Session) (location : String) : Session × Option PyError :=
  let s1 := { s with db := setF s.db (tableName location) [] }
  match s1.csv (csvName location) with
  | none => (s1, some .fileNotFound)
  | some rows =>
      ({ s1 with db := setF s1.db (tableName location) (withIds rows) }, none)

/-- The `SELECT * FROM weekly_{location};` query at the heart of
`get_data_from_db`: the location's full persisted table, rows in rowid
(insertion) order, or `none` when the table does not exist. -/
def readDb (s : Session) (location : String) : Option (List DbRow) :=
  s.db (tableName location)

/-- The store write path as exercised by `update_session`: write the
processed rows to the location's CSV, then load that CSV into the
location's sqlite table. -/
def writeTable (s : Session) (location : String) (rows : List Row) : Session :=
  (csv_to_db (to_csv s location rows) location).1

/-- First-match lookup in the `st.cache_data` memo table. -/
def cacheGet (cache : List ((String × DateD) × List DbRow))
    (key : String × DateD) : Option (List DbRow) :=
  match cache with
  | [] => none
  | (k, v) :: rest => if k = key then some v else cacheGet rest key

/-- `get_data_from_db` from src/main.py (lines 186-194) together with its
`@st.cache_data` decorator: on a memo hit for `(location, date)` the stored
result is returned and sqlite is not touched; on a miss the `SELECT` runs
(counted in `dbReads`) and a successful result is memoized.  A missing
table raises inside `pd.read_sql_query`, which `st.cache_data` does not
memoize. -/
def get_data_from_db (s : Session) (location : String) (date : DateD) :
    Option (List DbRow) × Session :=
  match cacheGet s.cache (location, date) with
  | some rows => (some rows, s)
  | none =>
      match readDb s location with
      | some rows =>
          (some rows,
            { s with cache := ((location, date), rows) :: s.cache
                     dbReads := s.dbReads + 1 })
      | none => (none, { s with dbReads := s.dbReads + 1 })

/-- `update_session` from src/main.py (lines 197-210), parametrised by the
decoded weather-code table and by `data`, the value returned by
`get_data_from_api` (`none` on every fetch failure: exhausted retries,
timeout, HTTP error status, or unexpected transport failure — the function
prints a message and falls through, returning `None`).  The session is
returned as mutated up to the point where an exception (if any) was
raised: `current_location` is assigned first; `response_to_pandas(None)`
raises `TypeError`; a length mismatch raises `ValueError`; an unmapped
weather code raises `KeyError` — all before any file or table is written. -/
def update_session (s : Session) (location : String)
    (codes : List (String × String)) (data : Option RawHourly)
    (today : DateD) : Session × Option PyError :=
  let s0 := { s with current_location := location }
  match data with
  | none => (s0, some .typeError)
  | some raw =>
      match response_to_pandas raw with
      | .error e => (s0, some e)
      | .ok df =>
          match process_df codes df with
          | .error e => (s0, some e)
          | .ok rows =>
              let s1 := to_csv s0 location rows
              match csv_to_db s1 location with
              | (s2, some e) => (s2, some e)
              | (s2, none) =>
                  let res := get_data_from_db s2 location today
                  ({ res.2 with current_df := res.1 }, none)

/-- The retry-relevant outcome of `get_data_from_api`. -/
inductive FetchOutcome where
  | success
  | httpError (status : Nat)
  | maxRetriesExceeded
  deriving DecidableEq, Repr

/-- `status_forcelist=[500, 502, 503, 504]` from the `Retry` configuration
in `get_data_from_api`. -/
def status_forcelist : List Nat := [500, 502, 503, 504]

/-- urllib3's retry loop for a GET whose attempt number `attempt` receives
HTTP status `statusAt attempt`: a status on the forcelist decrements the
remaining `total` retry budget and retries, raising `MaxRetryError` when
the budget would go negative; any other status is returned to the caller.
Result: the number of attempts made and `some status` for a returned
response or `none` for `MaxRetryError`. -/
def retryLoop (statusAt : Nat → Nat) (attempt : Nat) :
    Nat → Nat × Option Nat
  | 0 =>
      if statusAt attempt ∈ status_forcelist then (1, none)
      else (1, some (statusAt attempt))
  | totalLeft + 1 =>
      if statusAt attempt ∈ status_forcelist then
        let r := retryLoop statusAt (attempt + 1) totalLeft
        (r.1 + 1, r.2)
      else (1, some (statusAt attempt))

/-- `get_data_from_api` from src/main.py (lines 57-81), abstracted over the
status each HTTP attempt would receive: the pool manager is configured with
`Retry(total=total, status_forcelist=[500, 502, 503, 504])`; a raised
`MaxRetryError` is caught and reported; a returned response with status
`>= 400` is reported as an HTTP error; otherwise the parsed payload is
returned.  The first component counts the HTTP attempts actually made. -/
def get_data_from_api_run (statusAt : Nat → Nat) (total : Nat) :
    Nat × FetchOutcome :=
  let r := retryLoop statusAt 0 total
  (r.1,
    match r.2 with
    | none => .maxRetriesExceeded
    | some status => if 400 ≤ status then .httpError status else .success)

theorem withIds_map_snd (rows : List Row) :
    (withIds rows).map Prod.snd = rows := by
  unfold withIds
  rw [List.map_map]
  have h : (Prod.snd ∘ fun p : Nat × Row => (p.1 + 1, p.2)) = Prod.snd := rfl
  rw [h]
  exact List.map_snd_zip _ _ (by simp)

theorem string_append_left_cancel {a b c : String}
    (h : a ++ b = a ++ c) : b = c := by
  have hd : (a ++ b).data = (a ++ c).data := congrArg String.data h
  simp only [String.data_append] at hd
  cases b; cases c
  exact congrArg String.mk (List.append_cancel_left hd)

theorem tableName_inj {a b : String} (h : tableName a = tableName b) :
    a = b :=
  string_append_left_cancel h

theorem readDb_writeTable_self (s : Session) (location : String)
    (rows : List Row) :
    readDb (writeTable s location rows) location = some (withIds rows) := by
  simp [readDb, writeTable, csv_to_db, to_csv, setF]

/-- Claim C4.  Round-trip: reading a location's persisted table right after
writing `T` for it (the `to_csv` + `csv_to_db` write path) yields exactly
`T`'s rows, with the same field values, in the same (rowid) order; sqlite
additionally attaches the auto-increment ids 1…n, and projecting each
stored row to its forecast fields recovers `T` itself. -/
theorem write_read_roundtrip_C4 (s : Session) (location : String)
    (T : List Row) :
    readDb (writeTable s location T) location = some (withIds T) ∧
    (withIds T).map Prod.snd = T :=
  ⟨readDb_writeTable_self s location T, withIds_map_snd T⟩

/-- Claim C5.  Replace semantics: writing `T1` and then `T2` for the same
location leaves exactly `T2`'s rows in the persisted table — the write
drops and recreates the location's table, so nothing of `T1` survives and
no rows are duplicated or merged. -/
theorem write_write_replaces_C5 (s : Session) (location : String)
    (T1 T2 : List Row) :
    readDb (writeTable (writeTable s location T1) location T2) location =
      some (withIds T2) ∧
    (withIds T2).map Prod.snd = T2 :=
  ⟨readDb_writeTable_self (writeTable s location T1) location T2,
    withIds_map_snd T2⟩

/-- Claim C10.  Per-location isolation: a write for location `l1` touches
only the sqlite table `weekly_{l1}`, so for any other location `l2` a read
returns exactly what it returned before the write. -/
theorem write_isolated_C10 (s : Session) (l1 l2 : String) (T : List Row)
    (h : l1 ≠ l2) :
    readDb (writeTable s l1 T) l2 = readDb s l2 := by
  have hne : tableName l2 ≠ tableName l1 := fun hEq => h (tableName_inj hEq).symm
  simp [readDb, writeTable, csv_to_db, to_csv, setF, hne]

/-- Witness for C10 at concrete distinct locations. -/
theorem write_isolated_C10_witness :
    ("london" : String) ≠ "vienna" ∧
    readDb (writeTable emptySession "london" []) "vienna" =
      readDb emptySession "vienna" :=
  ⟨by decide, write_isolated_C10 emptySession "london" "vienna" [] (by decide)⟩

/-- A first persisted forecast row (the pre-refresh table). -/
def rowA : Row :=
  { date := 0, temperature_2m := 10, precipitation_probability := 0
    precipitation := 0, weather_code := 0, wind_speed_10m := 5
    weather := "Clear sky" }

/-- A refreshed forecast row, differing from `rowA` in its temperature. -/
def rowB : Row :=
  { rowA with temperature_2m := 20 }

/-- The reference date used in the cache scenario. -/
def c2Date : DateD := ⟨2024, 10, 29⟩

/-- A session whose database already holds the table `[rowA]` for london,
with an empty memo cache. -/
def c2Store0 : Session :=
  { emptySession with
      db := setF emptySession.db (tableName "london") (withIds [rowA]) }

/-- The session after the first cached read of (london, `c2Date`). -/
def c2AfterRead1 : Session :=
  (get_data_from_db c2Store0 "london" c2Date).2

/-- The session after a subsequent refresh writes the new table `[rowB]`
for london (the `to_csv` + `csv_to_db` write of `update_session`). -/
def c2AfterWrite : Session :=
  writeTable c2AfterRead1 "london" [rowB]

/-- Claim C2.  The claim requires that after a successful refresh (write)
for a location, the next read with the same `(location, date)` key
recomputes from the store.  The code violates this: `get_data_from_db` is
memoized by `st.cache_data` on its arguments and nothing clears that memo
on refresh, so after the store has been rewritten to hold `[rowB]`, the
read with the unchanged key still returns the previously memoized table
`[rowA]` and performs no further sqlite read (`dbReads` stays 1 — which
also exhibits the claim's true half, that the underlying store read runs
exactly once per key).  The code's own read-back
`st.session_state.current_df = get_data_from_db(location, …)` immediately
after `csv_to_db(location)` in `update_session` shows the fresh table was
intended to be loaded. -/
theorem cache_not_invalidated_by_refresh_C2 :
    (get_data_from_db c2Store0 "london" c2Date).1 = some (withIds [rowA]) ∧
    readDb c2AfterWrite "london" = some (withIds [rowB]) ∧
    (get_data_from_db c2AfterWrite "london" c2Date).1 =
      some (withIds [rowA]) ∧
    (get_data_from_db c2AfterWrite "london" c2Date).2.dbReads = 1 ∧
    withIds [rowA] ≠ withIds [rowB] := by
  refine ⟨rfl, rfl, rfl, rfl, by decide⟩

/-- The weather-code table used in the fallback scenario: code `0` is
mapped and a `generic` fallback entry is pre-registered, but the code
`9999` is absent. -/
def c3Codes : List (String × String) :=
  [("0", "Clear sky"), ("generic", "Some weather")]

/-- A one-row dataframe whose weather code `9999` is absent from
`c3Codes`. -/
def c3Df : List DfRow :=
  [{ date := 0, temperature_2m := 1, precipitation_probability := 0
     precipitation := 0, weather_code := 9999, wind_speed_10m := 1 }]

/-- Counterexample to claim C3: on a payload containing weather code `9999`
(absent from the code table, which even pre-registers a `generic` entry),
`process_df` does fail — the lookup `weather_codes[str(int(value))]` is a
plain dict indexing with no fallback, so it raises `KeyError` instead of
resolving to the fallback label. -/
theorem process_df_no_fallback_C3_counterexample :
    process_df c3Codes c3Df = .error (.keyError "9999") := by
  rfl

theorem buildWeather_ok (codes : List (String × String)) (vs : List Int)
    (h : ∀ v ∈ vs, (dictGet codes (toString v)).isSome) :
    ∃ ws, buildWeather codes vs = .ok ws ∧ ws.length = vs.length ∧
      ∀ i (h1 : i < ws.length) (h2 : i < vs.length),
        dictGet codes (toString (vs.get ⟨i, h2⟩)) = some (ws.get ⟨i, h1⟩) := by
  induction vs with
  | nil =>
      exact ⟨[], rfl, rfl, fun i h1 _ => absurd h1 (by simp)⟩
  | cons v vs ih =>
      have hv : (dictGet codes (toString v)).isSome := h v (by simp)
      obtain ⟨w, hw⟩ := Option.isSome_iff_exists.mp hv
      obtain ⟨ws, hws, hlen, hget⟩ := ih (fun x hx => h x (by simp [hx]))
      refine ⟨w :: ws, ?_, by simp [hlen], ?_⟩
      · simp [buildWeather, hw, hws]
      · intro i h1 h2
        cases i with
        | zero => simpa using hw
        | succ n => exact hget n (by simpa using h1) (by simpa using h2)

theorem buildWeather_length (codes : List (String × String)) :
    ∀ (vs : List Int) (ws : List String),
      buildWeather codes vs = .ok ws → ws.length = vs.length := by
  intro vs
  induction vs with
  | nil =>
      intro ws hws
      simp only [buildWeather] at hws
      cases hws
      rfl
  | cons v vs ih =>
      intro ws hws
      simp only [buildWeather] at hws
      cases hd : dictGet codes (toString v) with
      | none => rw [hd] at hws; cases hws
      | some w =>
          rw [hd] at hws
          cases hb : buildWeather codes vs with
          | error e => rw [hb] at hws; cases hws
          | ok tl =>
              rw [hb] at hws
              cases hws
              simp [ih tl hb]

theorem attachWeather_length (df : List DfRow) :
    ∀ ws : List String, df.length = ws.length →
      (attachWeather df ws).length = df.length := by
  induction df with
  | nil => intro ws _; rfl
  | cons r rs ih =>
      intro ws h
      cases ws with
      | nil => simp at h
      | cons w ws => simp [attachWeather, ih ws (by simpa using h)]

theorem attachWeather_get (df : List DfRow) :
    ∀ (ws : List String) (i : Nat) (h1 : i < (attachWeather df ws).length)
      (h2 : i < df.length) (h3 : i < ws.length),
      (attachWeather df ws).get ⟨i, h1⟩ =
        processRow (df.get ⟨i, h2⟩) (ws.get ⟨i, h3⟩) := by
  induction df with
  | nil => intro ws i h1 h2 h3; simp at h2
  | cons r rs ih =>
      intro ws i h1 h2 h3
      cases ws with
      | nil => simp at h3
      | cons w ws =>
          cases i with
          | zero => rfl
          | succ n =>
              exact ih ws n (by simpa [attachWeather] using h1)
                (by simpa using h2) (by simpa using h3)

/-- Claim C3 (amended).  `process_df` has no fallback for the weather
label: a payload containing a weather code absent from the code→label
table makes it raise `KeyError` (see the counterexample).  When every
row's weather code is present in the table, normalization does not fail
and the derived `weather` column is present and defined for every row,
holding that row's looked-up label. -/
theorem process_df_weather_defined_C3 (codes : List (String × String))
    (df : List DfRow)
    (h : ∀ r ∈ df, (dictGet codes (toString r.weather_code)).isSome) :
    ∃ rows, process_df codes df = .ok rows ∧ rows.length = df.length ∧
      ∀ i (h1 : i < rows.length) (h2 : i < df.length),
        dictGet codes (toString ((df.get ⟨i, h2⟩).weather_code)) =
          some ((rows.get ⟨i, h1⟩).weather) := by
  have hmap : ∀ v ∈ df.map (·.weather_code),
      (dictGet codes (toString v)).isSome := by
    intro v hv
    obtain ⟨r, hr, hveq⟩ := List.mem_map.mp hv
    exact hveq ▸ h r hr
  obtain ⟨ws, hws, hlen, hget⟩ :=
    buildWeather_ok codes (df.map (·.weather_code)) hmap
  have hwlen : df.length = ws.length := by simpa using hlen.symm
  refine ⟨attachWeather df ws, ?_, attachWeather_length df ws hwlen, ?_⟩
  · simp [process_df, hws]
  · intro i h1 h2
    have h3 : i < ws.length := hwlen ▸ h2
    rw [attachWeather_get df ws i h1 h2 h3]
    have h2m : i < (df.map (·.weather_code)).length := by simpa using h2
    have hi := hget i h3 h2m
    simpa [List.get_eq_getElem, List.getElem_map, processRow] using hi

/-- A one-row dataframe whose weather code `0` is present in `c3Codes`. -/
def c3DfOk : List DfRow :=
  [{ date := 0, temperature_2m := 1, precipitation_probability := 0
     precipitation := 0, weather_code := 0, wind_speed_10m := 1 }]

/-- Witness for the amended C3 at a concrete fully-mapped payload. -/
theorem process_df_weather_defined_C3_witness :
    (∀ r ∈ c3DfOk, (dictGet c3Codes (toString r.weather_code)).isSome) ∧
    (∃ rows, process_df c3Codes c3DfOk = .ok rows ∧
      rows.length = c3DfOk.length ∧
      ∀ i (h1 : i < rows.length) (h2 : i < c3DfOk.length),
        dictGet c3Codes (toString ((c3DfOk.get ⟨i, h2⟩).weather_code)) =
          some ((rows.get ⟨i, h1⟩).weather)) :=
  ⟨by decide, process_df_weather_defined_C3 c3Codes c3DfOk (by decide)⟩

/-- Claim C9.  The numeric normalization of `process_df`: whenever it
succeeds, every output row's `temperature_2m` and `wind_speed_10m` are the
raw value rounded (half to even) to one decimal and then cast to int
(truncation toward zero) — the exact two-step round-then-cast of
`Series.round(1)` followed by `astype(int)` — and `precipitation` is the
raw value rounded to one decimal, kept fractional. -/
theorem process_df_rounding_C9 (codes : List (String × String))
    (df : List DfRow) (rows : List Row)
    (h : process_df codes df = .ok rows) :
    rows.length = df.length ∧
    ∀ i (h1 : i < rows.length) (h2 : i < df.length),
      (rows.get ⟨i, h1⟩).temperature_2m =
        truncToZero (round1 ((df.get ⟨i, h2⟩).temperature_2m)) ∧
      (rows.get ⟨i, h1⟩).wind_speed_10m =
        truncToZero (round1 ((df.get ⟨i, h2⟩).wind_speed_10m)) ∧
      (rows.get ⟨i, h1⟩).precipitation =
        round1 ((df.get ⟨i, h2⟩).precipitation) := by
  simp only [process_df] at h
  cases hb : buildWeather codes (df.map (·.weather_code)) with
  | error e => rw [hb] at h; cases h
  | ok ws =>
      rw [hb] at h
      cases h
      have hwlen : df.length = ws.length := by
        simpa using (buildWeather_length codes _ ws hb).symm
      constructor
      · exact attachWeather_length df ws hwlen
      · intro i h1 h2
        have h3 : i < ws.length := hwlen ▸ h2
        rw [attachWeather_get df ws i h1 h2 h3]
        exact ⟨rfl, rfl, rfl⟩

/-- The weather-code table used in the rounding scenario. -/
def c9Codes : List (String × String) := [("1", "Mainly clear")]

/-- A one-row dataframe with a negative half-boundary temperature, a
fractional wind speed and a fractional precipitation amount. -/
def c9Df : List DfRow :=
  [{ date := 0, temperature_2m := -3/2, precipitation_probability := 40
     precipitation := 1/4, weather_code := 1, wind_speed_10m := 19/2 }]

/-- The processed row: `-1.5` rounds to `-1.5` then casts to `-1`, `9.5`
rounds to `9.5` then casts to `9`, and `0.25` rounds half-to-even to
`0.2`. -/
def c9Rows : List Row :=
  [{ date := 0, temperature_2m := -1, precipitation_probability := 40
     precipitation := 1/5, weather_code := 1, wind_speed_10m := 9
     weather := "Mainly clear" }]

unseal Rat.mul Rat.add Rat.sub Rat.inv in
/-- Witness for C9 at a concrete payload. -/
theorem process_df_rounding_C9_witness :
    process_df c9Codes c9Df = .ok c9Rows ∧
    (c9Rows.length = c9Df.length ∧
      ∀ i (h1 : i < c9Rows.length) (h2 : i < c9Df.length),
        (c9Rows.get ⟨i, h1⟩).temperature_2m =
          truncToZero (round1 ((c9Df.get ⟨i, h2⟩).temperature_2m)) ∧
        (c9Rows.get ⟨i, h1⟩).wind_speed_10m =
          truncToZero (round1 ((c9Df.get ⟨i, h2⟩).wind_speed_10m)) ∧
        (c9Rows.get ⟨i, h1⟩).precipitation =
          round1 ((c9Df.get ⟨i, h2⟩).precipitation)) :=
  ⟨by decide, process_df_rounding_C9 c9Codes c9Df c9Rows (by decide)⟩

/-- Claim C7.  When the response's declared timestamps are nonempty and
some per-hour variable array's length differs from the length of the
contiguous hourly sequence spanning the first and last declared
timestamps, `response_to_pandas` fails for that refresh attempt — the
`pd.DataFrame` constructor rejects columns of unequal length (modelled as
`PyError.valueError`, the schema error) instead of silently truncating or
zipping. -/
theorem response_to_pandas_length_mismatch_C7 (r : RawHourly)
    (h0 : r.time ≠ [])
    (h : r.temperature_2m.length ≠ (hourlySpan r.time).length ∨
      r.precipitation_probability.length ≠ (hourlySpan r.time).length ∨
      r.precipitation.length ≠ (hourlySpan r.time).length ∨
      r.weather_code.length ≠ (hourlySpan r.time).length ∨
      r.wind_speed_10m.length ≠ (hourlySpan r.time).length) :
    response_to_pandas r = .error .valueError := by
  obtain ⟨time, ta, tb, tc, tw, ts⟩ := r
  cases time with
  | nil => exact absurd rfl h0
  | cons t0 rest =>
      simp only [hourlySpan] at h
      simp only [response_to_pandas]
      split
      next hcond =>
        exfalso
        rcases h with h | h | h | h | h
        · exact h hcond.1
        · exact h hcond.2.1
        · exact h hcond.2.2.1
        · exact h hcond.2.2.2.1
        · exact h hcond.2.2.2.2
      next => rfl

/-- A raw response spanning two hours whose temperature array has only one
entry. -/
def c7Raw : RawHourly :=
  { time := [0, 1], temperature_2m := [1]
    precipitation_probability := [0, 0], precipitation := [0, 0]
    weather_code := [0, 0], wind_speed_10m := [0, 0] }

/-- Witness for C7 at a concrete mismatched response. -/
theorem response_to_pandas_length_mismatch_C7_witness :
    c7Raw.time ≠ [] ∧
    (c7Raw.temperature_2m.length ≠ (hourlySpan c7Raw.time).length ∨
      c7Raw.precipitation_probability.length ≠ (hourlySpan c7Raw.time).length ∨
      c7Raw.precipitation.length ≠ (hourlySpan c7Raw.time).length ∨
      c7Raw.weather_code.length ≠ (hourlySpan c7Raw.time).length ∨
      c7Raw.wind_speed_10m.length ≠ (hourlySpan c7Raw.time).length) ∧
    response_to_pandas c7Raw = .error .valueError :=
  ⟨by decide, by decide,
    response_to_pandas_length_mismatch_C7 c7Raw (by decide) (by decide)⟩

/-- Claim C8.  Non-destructive failure: a refresh whose fetch failed
(`get_data_from_api` returns `None` after exhausted retries, a timeout, an
HTTP error status, or an unexpected transport failure) crashes in
`response_to_pandas(None)` with a `TypeError` before anything is written,
so the persisted CSV files and every location's sqlite table are exactly
as they were before the refresh. -/
theorem failed_fetch_preserves_store_C8 (s : Session) (location : String)
    (codes : List (String × String)) (today : DateD) :
    (update_session s location codes none today).1.db = s.db ∧
    (update_session s location codes none today).1.csv = s.csv ∧
    (update_session s location codes none today).2 = some .typeError :=
  ⟨rfl, rfl, rfl⟩

/-- Counterexample to claim C6: with `Retry(total=5)` and HTTP 503 on
every attempt, the fetch does not make exactly 5 attempts — urllib3 counts
`total` as the number of retries after the initial attempt, so 6 requests
go out before `MaxRetryError` is raised. -/
theorem retry_attempts_C6_counterexample :
    (get_data_from_api_run (fun _ => 503) 5).1 ≠ 5 := by
  decide

theorem retryLoop_const_retryable (status : Nat)
    (hs : status ∈ status_forcelist) :
    ∀ (n a : Nat), retryLoop (fun _ => status) a n = (n + 1, none) := by
  intro n
  induction n with
  | zero => intro a; simp [retryLoop, hs]
  | succ m ih => intro a; simp [retryLoop, hs, ih (a + 1)]

/-- Claim C6 (amended).  A fetcher configured with `Retry(total=5)` that
receives one of the retryable server-side statuses 500/502/503/504 on
every attempt makes exactly 6 attempts (the initial request plus 5
retries) — not 5 — and then fails with `MaxRetryError`, reported as the
max-retries-exceeded failure; a non-retryable 4xx client error status is
not retried: the response is returned after exactly 1 attempt and reported
as an immediate HTTP-error failure. -/
theorem retry_bound_C6 :
    (∀ status ∈ status_forcelist,
      get_data_from_api_run (fun _ => status) 5 =
        (6, FetchOutcome.maxRetriesExceeded)) ∧
    (∀ status, 400 ≤ status → status < 500 → status ∉ status_forcelist →
      get_data_from_api_run (fun _ => status) 5 =
        (1, FetchOutcome.httpError status)) := by
  constructor
  · intro status hs
    simp [get_data_from_api_run, retryLoop_const_retryable status hs 5 0]
  · intro status h4 _ hns
    simp [get_data_from_api_run, retryLoop, hns, h4]

/-- Witness for the amended C6 at the statuses 503 and 404. -/
theorem retry_bound_C6_witness :
    (503 ∈ status_forcelist ∧
      get_data_from_api_run (fun _ => 503) 5 =
        (6, FetchOutcome.maxRetriesExceeded)) ∧
    (400 ≤ 404 ∧ 404 < 500 ∧ 404 ∉ status_forcelist ∧
      get_data_from_api_run (fun _ => 404) 5 =
        (1, FetchOutcome.httpError 404)) :=
  ⟨⟨by decide, retry_bound_C6.1 503 (by decide)⟩,
    ⟨by decide, by decide, by decide,
      retry_bound_C6.2 404 (by decide) (by decide) (by decide)⟩⟩
